import Mathlib

set_option autoImplicit false
set_option maxRecDepth 8000

/-!
Shallow embedding of the Real-Address-Generator-API repository
(`app/utils/country_manager.py`, `app/utils/address_fetcher.py`,
`app/utils/persona_generator.py`, `app/main.py`).

Strings are modelled as `List Char`; Python truthiness of strings and
optionals is modelled explicitly.  External collaborators (the Nominatim
HTTP provider, the `faker` data generator, the `phonenumbers` library and
the `babel` territory tables) are inputs: they are passed in as oracle
parameters, so that every theorem quantifies over all possible behaviours
of the collaborator.  Exceptions are modelled with `Except PyErr`.
-/

namespace RAG

/-- Python strings, modelled as lists of characters. -/
abbrev Str := List Char

/-- Literal helper: the character list of a Lean string literal. -/
def s2l (s : String) : Str := s.data

/-- Python truthiness of an optional string: `None` and `""` are falsy. -/
def truthy : Option Str → Bool
  | none => false
  | some s => !s.isEmpty

/-- Python `a or b` on optional-string values: the first truthy operand,
otherwise the value of the second operand. -/
def pyOr (a b : Option Str) : Option Str :=
  if truthy a then a else b

/-- Python `a or d` where `d` is a (plain) string literal default. -/
def pyOrD (a : Option Str) (d : Str) : Str :=
  if truthy a then a.getD [] else d

/-- ASCII upper/lower case pairs, used to model Python `str.lower()`. -/
def lowerPairs : List (Char × Char) :=
  [('A', 'a'), ('B', 'b'), ('C', 'c'), ('D', 'd'), ('E', 'e'), ('F', 'f'),
   ('G', 'g'), ('H', 'h'), ('I', 'i'), ('J', 'j'), ('K', 'k'), ('L', 'l'),
   ('M', 'm'), ('N', 'n'), ('O', 'o'), ('P', 'p'), ('Q', 'q'), ('R', 'r'),
   ('S', 's'), ('T', 't'), ('U', 'u'), ('V', 'v'), ('W', 'w'), ('X', 'x'),
   ('Y', 'y'), ('Z', 'z')]

/-- Case-folding of one character (model of Python `str.lower` on ASCII). -/
def pyCharLower (c : Char) : Char :=
  ((lowerPairs.find? (fun p => p.1 = c)).map Prod.snd).getD c

/-- Model of Python `s.lower()`. -/
def pyLower (s : Str) : Str := s.map pyCharLower

/-- Whitespace characters removed by Python `str.strip()`. -/
def isSpaceChar (c : Char) : Bool :=
  c = ' ' || c = '\t' || c = '\n' || c = '\r'

/-- Model of Python `s.strip()`. -/
def pyStrip (s : Str) : Str :=
  ((s.dropWhile isSpaceChar).reverse.dropWhile isSpaceChar).reverse

/-- Python `s.strip(chars)`: strip any of the given characters from both ends. -/
def pyStripSet (cs : List Char) (s : Str) : Str :=
  ((s.dropWhile (fun c => cs.contains c)).reverse.dropWhile
      (fun c => cs.contains c)).reverse

/-- Model of Python `" ".join(parts)` (for an arbitrary separator). -/
def pyJoin (sep : Str) : List Str → Str
  | [] => []
  | [x] => x
  | x :: y :: rest => x ++ sep ++ pyJoin sep (y :: rest)

/-- A Python `dict` built by successive insertions, modelled as the insertion
sequence; lookup returns the value of the LAST insertion with the key,
which models overwrite-on-insert. -/
def pyDictGet : List (Str × Str) → Str → Option Str
  | [], _ => none
  | (k, v) :: rest, key =>
    match pyDictGet rest key with
    | some r => some r
    | none => if k = key then some v else none

/-- The distinct keys of a Python dict (as an insertion sequence). -/
def pyDictKeys (m : List (Str × Str)) : List Str :=
  (m.map Prod.fst).dedup

/-- The values of a Python dict (as an insertion sequence): for each distinct
key, the value of its last insertion.  Models `dict.values()` up to order
and multiplicity (the source only uses the value SET). -/
def pyDictValues (m : List (Str × Str)) : List Str :=
  (pyDictKeys m).filterMap (fun k => pyDictGet m k)

/-- `random.choice(l)` with the random index supplied as an oracle. -/
def pickChoice (l : List Str) (idx : Nat) : Str :=
  l.getD (idx % l.length) []

/-- Exceptions that can be raised by the modelled Python code or its
collaborators. -/
inductive PyErr where
  | attributeError
  | requestError
  | jsonError
  | numberParseError
  | cityError
  | formatError
  deriving DecidableEq

/-! ## `app/utils/country_manager.py` -/

/-- The manual alias table of `CountryManager.load_country_data` (step 4). -/
def manual_aliases : List (Str × Str) :=
  [(s2l "america", s2l "US"), (s2l "usa", s2l "US"), (s2l "uk", s2l "GB"),
   (s2l "england", s2l "GB"), (s2l "great britain", s2l "GB"),
   (s2l "russia", s2l "RU"), (s2l "south korea", s2l "KR"),
   (s2l "north korea", s2l "KP")]

/-- Steps 1-2 of `load_country_data`: insert `name.lower() -> code` for the
English territory table, then for the Chinese one.  The two tables are the
external `babel` data and are passed in as parameters. -/
def territoryEntries (en zh : List (Str × Str)) : List (Str × Str) :=
  (en ++ zh).map (fun p => (pyLower p.1, p.2))

/-- `CountryManager.load_country_data`: territory names from two languages
(case-folded keys), then identity entries `code.lower() -> code` for every
value of the dict built so far, then the manual aliases, inserted last. -/
def load_country_data (en zh : List (Str × Str)) : List (Str × Str) :=
  let m := territoryEntries en zh
  (m ++ (pyDictValues m).map (fun code => (pyLower code, code))) ++
    manual_aliases

/-- `CountryManager.normalize`: `None` for a falsy input, otherwise the dict
lookup of `input_str.strip().lower()`. -/
def normalize (country_map : List (Str × Str)) (input_str : Str) : Option Str :=
  if input_str.isEmpty then none
  else pyDictGet country_map (pyLower (pyStrip input_str))

/-- `CountryManager.get_faker_locale`: `"en_US"` for a falsy code, otherwise
the `iso_to_faker` lookup with default `"en_US"`. -/
def get_faker_locale (iso_to_faker : List (Str × Str)) (iso_code : Str) : Str :=
  if iso_code.isEmpty then s2l "en_US"
  else (pyDictGet iso_to_faker iso_code).getD (s2l "en_US")

/-- The attributes (methods and fields) that class `CountryManager` actually
defines, read off from `country_manager.py`. -/
def countryManagerAttrs : List Str :=
  [s2l "country_map", s2l "iso_to_faker", s2l "load_country_data",
   s2l "_build_faker_map", s2l "normalize", s2l "get_faker_locale"]

/-- Python attribute lookup: `AttributeError` when the object has no
attribute of the given name. -/
def lookupAttr (attrs : List Str) (name : Str) : Except PyErr Str :=
  if attrs.contains name then .ok name else .error .attributeError

/-! ## `app/utils/persona_generator.py` -/

/-- The record returned by `PersonaGenerator.generate`. -/
structure Persona where
  name : Str
  phone : Str
  deriving DecidableEq

/-- Oracle for the `faker` collaborator as used by `generate`. -/
structure FakerOracle where
  name : Str
  phone : Str

/-- `PersonaGenerator.generate`: first evaluates
`country_manager.get_faker(country_code)`, an attribute lookup on the
`CountryManager` instance; if that lookup raises, the exception propagates.
Otherwise a name and phone would be produced from the faker oracle. -/
def persona_generate (fk : FakerOracle) (country_code : Str) :
    Except PyErr Persona :=
  match lookupAttr countryManagerAttrs (s2l "get_faker") with
  | .error e => .error e
  | .ok _ =>
    let _ := country_code
    .ok { name := fk.name, phone := fk.phone }

/-- A phone-number object of the `phonenumbers` library: the model only
needs its `country_code` attribute. -/
structure PhoneNumber where
  country_code : Nat
  deriving DecidableEq

/-- Oracle for the `phonenumbers` and `faker` collaborators as used by
`PersonaGenerator._generate_phone_number`.  Every fallible library call is
an `Except`, so theorems quantify over throwing behaviours too. -/
structure PhoneEnv where
  exampleNumberForTypeMobile : Str → Except PyErr (Option PhoneNumber)
  exampleNumber : Str → Except PyErr (Option PhoneNumber)
  formatE164 : PhoneNumber → Except PyErr Str
  parseNumber : Str → Str → Except PyErr PhoneNumber
  formatIntlParsed : PhoneNumber → Except PyErr Str
  formatIntlExample : PhoneNumber → Except PyErr Str
  randomDigits : Nat → Str
  fakerPhoneNumber : Str

/-- Decimal digit count of a natural number (`len(str(n))`). -/
def decimalLen (n : Nat) : Nat := (Nat.toDigits 10 n).length

/-- The digit-randomisation arithmetic of `_generate_phone_number`:
`cc_len`, `prefix_len`, `digits_to_keep_len` and the final
`num_digits_to_randomize`, computed in `Int` as Python does. -/
def numDigitsToRandomize (ex : PhoneNumber) (e164 : Str) : Int :=
  let cc_len : Int := decimalLen ex.country_code
  let pfx_len : Int := cc_len + 1
  let digits_to_keep_len : Int := pfx_len + 2
  let n0 : Int := (e164.length : Int) - digits_to_keep_len
  let n1 : Int := min n0 6
  if n1 < 4 then max 0 ((e164.length : Int) - (pfx_len + 1)) else n1

/-- The mutated number string built by `_generate_phone_number` when
`num_digits_to_randomize > 0`: `e164_str[:-n] + random digits`. -/
def mutatedNumberStr (env : PhoneEnv) (e164 : Str) (n : Nat) : Str :=
  e164.take (e164.length - n) ++ env.randomDigits n

/-- The body of the outer `try:` of `_generate_phone_number`.  `.ok none`
means the body fell through without returning (no example number at all);
`.error` means an uncaught exception escapes to the outer handler. -/
def generatePhoneTryBody (env : PhoneEnv) (country_code : Str) :
    Except PyErr (Option Str) := do
  let ex0 ← env.exampleNumberForTypeMobile country_code
  let exampleNum ←
    match ex0 with
    | none => env.exampleNumber country_code
    | some e => pure (some e)
  match exampleNum with
  | none => pure none
  | some ex => do
    let e164 ← env.formatE164 ex
    let n := numDigitsToRandomize ex e164
    if 0 < n then
      let new_number_str := mutatedNumberStr env e164 n.toNat
      match env.parseNumber new_number_str country_code with
      | .error _ => pure (some new_number_str)
      | .ok new_obj =>
        match env.formatIntlParsed new_obj with
        | .error _ => pure (some new_number_str)
        | .ok s => pure (some s)
    else
      (env.formatIntlExample ex).map some

/-- `PersonaGenerator._generate_phone_number`: the outer `try:` body with
its fall-through and exception cases both ending in the faker fallback. -/
def generate_phone_number (env : PhoneEnv) (country_code : Str) : Str :=
  match generatePhoneTryBody env country_code with
  | .ok (some s) => s
  | .ok none => env.fakerPhoneNumber
  | .error _ => env.fakerPhoneNumber

/-! ## `app/utils/address_fetcher.py` -/

/-- The fixed point-of-interest keyword vocabulary. -/
def search_keywords : List Str :=
  [s2l "hotel", s2l "restaurant", s2l "school", s2l "cafe", s2l "bakery",
   s2l "pharmacy", s2l "library", s2l "post office", s2l "park",
   s2l "supermarket", s2l "museum", s2l "hospital"]

/-- The curated major-city table. -/
def major_cities : List (Str × List Str) :=
  [(s2l "US", [s2l "New York", s2l "Los Angeles", s2l "Chicago",
               s2l "Houston", s2l "Phoenix"]),
   (s2l "CN", [s2l "Beijing", s2l "Shanghai", s2l "Guangzhou",
               s2l "Shenzhen"]),
   (s2l "GB", [s2l "London", s2l "Manchester", s2l "Birmingham"]),
   (s2l "JP", [s2l "Tokyo", s2l "Osaka", s2l "Kyoto"]),
   (s2l "DE", [s2l "Berlin", s2l "Munich", s2l "Hamburg"]),
   (s2l "FR", [s2l "Paris", s2l "Lyon", s2l "Marseille"])]

/-- Lookup in the major-city table (`country_code in self.major_cities`
followed by indexing; the keys are distinct). -/
def lookupCities (m : List (Str × List Str)) (k : Str) : Option (List Str) :=
  (m.find? (fun p => p.1 = k)).map Prod.snd

/-- The `address` substructure of a raw OSM result, with `none` modelling a
missing key (`dict.get` returning `None`). -/
structure OSMAddress where
  road : Option Str
  pedestrian : Option Str
  footway : Option Str
  street : Option Str
  house_number : Option Str
  amenity : Option Str
  shop : Option Str
  city : Option Str
  town : Option Str
  village : Option Str
  county : Option Str
  municipality : Option Str
  state : Option Str
  province : Option Str
  region : Option Str
  postcode : Option Str
  country : Option Str
  deriving DecidableEq

/-- The empty `address` dict (`result.get('address', {})` default). -/
def emptyOSMAddress : OSMAddress :=
  { road := none, pedestrian := none, footway := none, street := none,
    house_number := none, amenity := none, shop := none, city := none,
    town := none, village := none, county := none, municipality := none,
    state := none, province := none, region := none, postcode := none,
    country := none }

/-- A raw OSM result: `address := none` models a result without an
`'address'` key. -/
structure OSMResult where
  address : Option OSMAddress
  name : Option Str
  display_name : Option Str
  deriving DecidableEq

/-- A raw OSM result with nothing in it, used as a list-indexing default. -/
def emptyOSMResult : OSMResult :=
  { address := none, name := none, display_name := none }

/-- The normalized address record returned by `_parse_osm_result`. -/
structure NormalizedAddress where
  address : Str
  city : Option Str
  state : Option Str
  zipcode : Option Str
  country : Option Str
  full_address : Option Str
  deriving DecidableEq

/-- `AddressFetcher._parse_osm_result`, translated clause by clause:
Python's `or` chains are `pyOr`, truthiness tests are `truthy`. -/
def parse_osm_result (result : OSMResult) : NormalizedAddress :=
  let addr := result.address.getD emptyOSMAddress
  let street := pyOr addr.road (pyOr addr.pedestrian
    (pyOr addr.footway addr.street))
  let house_num := addr.house_number
  let address_line :=
    if truthy street then
      if truthy house_num then house_num.getD [] ++ s2l " " ++ street.getD []
      else street.getD []
    else
      pyOrD (pyOr addr.amenity (pyOr addr.shop result.name))
        (s2l "Unknown Street")
  { address := address_line
  , city := pyOr addr.city (pyOr addr.town (pyOr addr.village
      (pyOr addr.county addr.municipality)))
  , state := pyOr addr.state (pyOr addr.province addr.region)
  , zipcode := addr.postcode
  , country := addr.country
  , full_address := result.display_name }

/-- The query parts built by `_query_nominatim`: keyword, then
`"in {zipcode}"`, `"in {city}"`, and the state verbatim, each under a
truthiness test; in broad mode the single part `"{keyword} in"`.  The
random keyword index is an oracle parameter. -/
def nominatimQueryParts (kwIdx : Nat) (city zipcode state : Option Str)
    (broad_search : Bool) : List Str :=
  let keyword := pickChoice search_keywords kwIdx
  if !broad_search then
    [keyword] ++
      (if truthy zipcode then [s2l "in " ++ zipcode.getD []] else []) ++
      (if truthy city then [s2l "in " ++ city.getD []] else []) ++
      (if truthy state then [state.getD []] else [])
  else
    [keyword ++ s2l " in"]

/-- `q_str = " ".join(query_parts)`. -/
def nominatimQueryText (kwIdx : Nat) (city zipcode state : Option Str)
    (broad_search : Bool) : Str :=
  pyJoin (s2l " ") (nominatimQueryParts kwIdx city zipcode state broad_search)

/-- The request parameters of `_query_nominatim`. -/
structure NominatimParams where
  q : Str
  countrycodes : Str
  fmt : Str
  addressdetails : Nat
  limit : Nat
  acceptLanguage : Str
  deriving DecidableEq

/-- The `params` dict of `_query_nominatim`. -/
def nominatimParams (country_code : Str) (kwIdx : Nat)
    (city zipcode state : Option Str) (broad_search : Bool) :
    NominatimParams :=
  { q := nominatimQueryText kwIdx city zipcode state broad_search
  , countrycodes := country_code
  , fmt := s2l "jsonv2"
  , addressdetails := 1
  , limit := 10
  , acceptLanguage := s2l "native" }

/-- The outcome of the outbound `requests.get` call: either the call raised
(timeout, connection failure) or a response arrived, whose body either
parses to a JSON result list or raises when `.json()` is called. -/
inductive TransportOutcome where
  | raised (e : PyErr)
  | response (status : Nat) (jsonBody : Except PyErr (List OSMResult))

/-- `random.choice(valid_results)` with the random index as an oracle. -/
def pickOSM (l : List OSMResult) (idx : Nat) : OSMResult :=
  l.getD (idx % l.length) emptyOSMResult

/-- The body of the `try:` in `_query_nominatim` that performs the request
and handles the response.  `.error` marks positions where the Python body
would raise (inside the `try`). -/
def queryResponseTryBody (o : TransportOutcome) (pickIdx : Nat) :
    Except PyErr (Option NormalizedAddress) :=
  match o with
  | .raised e => .error e
  | .response status jsonBody =>
    if status = 200 then
      match jsonBody with
      | .error e => .error e
      | .ok results =>
        if !results.isEmpty then
          let valid_results := results.filter (fun r => r.address.isSome)
          if !valid_results.isEmpty then
            .ok (some (parse_osm_result (pickOSM valid_results pickIdx)))
          else .ok none
        else .ok none
    else .ok none

/-- The response handling of `_query_nominatim` including its
`except Exception` clause: every raise inside the `try` is caught and the
query returns `None`. -/
def queryResponseResult (o : TransportOutcome) (pickIdx : Nat) :
    Option NormalizedAddress :=
  match queryResponseTryBody o pickIdx with
  | .ok v => v
  | .error _ => none

/-- A single `_query_nominatim` call as seen from `fetch_real_address`:
its argument tuple. -/
structure QueryReq where
  country_code : Str
  city : Option Str
  zipcode : Option Str
  state : Option Str
  broad_search : Bool
  deriving DecidableEq

/-- Oracle environment for one `fetch_real_address` call: the outcome of
each `_query_nominatim` call (which never raises, by `queryResponseResult`),
the outcome of each `fake.city()` call (which may raise), and the random
index used by `random.choice` on the major-city list. -/
structure FetchEnv where
  queryResult : QueryReq → Option NormalizedAddress
  cityGen : Nat → Except PyErr Str
  majorCityIdx : Nat

/-- One iteration of the level-2 loop of `fetch_real_address`:
`try: random_city = fake.city(); address = self._query_nominatim(...)`
with the `except` clause swallowing the exception. -/
def level2attempt (env : FetchEnv) (country_code : Str) (i : Nat) :
    Option NormalizedAddress :=
  match env.cityGen i with
  | .error _ => none
  | .ok random_city =>
    env.queryResult ⟨country_code, some random_city, none, none, false⟩

/-- `AddressFetcher.fetch_real_address`, translated statement by statement:
level 1 only under `if city or zipcode:`, two level-2 loop iterations, the
major-city fallback only under `if country_code in self.major_cities:`,
then the broad search, then `return None`. -/
def fetch_real_address (env : FetchEnv) (country_code : Str)
    (city zipcode state : Option Str) : Option NormalizedAddress :=
  match (if truthy city || truthy zipcode then
          env.queryResult ⟨country_code, city, zipcode, state, false⟩
        else none) with
  | some address => some address
  | none =>
    match level2attempt env country_code 0 with
    | some address => some address
    | none =>
      match level2attempt env country_code 1 with
      | some address => some address
      | none =>
        match lookupCities major_cities country_code with
        | some cities =>
          match env.queryResult ⟨country_code,
              some (pickChoice cities env.majorCityIdx), none, none, false⟩ with
          | some address => some address
          | none => env.queryResult ⟨country_code, none, none, none, true⟩
        | none => env.queryResult ⟨country_code, none, none, none, true⟩

/-- Specification-side view of the cascade (from the spec's words): the
ordered list of level outcomes, one entry per level attempt, with the
gating conditions of levels 1 and 3 made explicit. -/
def levelOutcomes (env : FetchEnv) (country_code : Str)
    (city zipcode state : Option Str) : List (Option NormalizedAddress) :=
  [ (if truthy city || truthy zipcode then
      env.queryResult ⟨country_code, city, zipcode, state, false⟩
    else none)
  , level2attempt env country_code 0
  , level2attempt env country_code 1
  , (match lookupCities major_cities country_code with
    | some cities =>
      env.queryResult ⟨country_code,
        some (pickChoice cities env.majorCityIdx), none, none, false⟩
    | none => none)
  , env.queryResult ⟨country_code, none, none, none, true⟩ ]

/-- First success of an ordered list of attempts (the spec's
"strict ordered cascade, stopping at first success"). -/
def firstSome : List (Option NormalizedAddress) → Option NormalizedAddress
  | [] => none
  | none :: rest => firstSome rest
  | some a :: _ => some a

/-! ## Rate limiter (`AddressFetcher._wait_for_rate_limit`) -/

/-- Sequential state of the rate limiter: the process-wide
`last_request_time` and the current clock.  Time is measured in tenths of
a second, so the `1.1` seconds of the source is the integer `11`. -/
structure LimiterState where
  last_request_time : Int
  clock : Int
  deriving DecidableEq

/-- `_wait_for_rate_limit` executed without interleaving: read the clock,
compute `elapsed`, sleep `1.1 - elapsed` if `elapsed < 1.1` (sleeping
advances the clock by exactly the requested amount), then store the new
clock in `last_request_time`.  The query is sent at the resulting clock. -/
def wait_for_rate_limit (st : LimiterState) : LimiterState :=
  let current_time := st.clock
  let elapsed := current_time - st.last_request_time
  let afterSleep :=
    if elapsed < 11 then { st with clock := st.clock + (11 - elapsed) } else st
  { afterSleep with last_request_time := afterSleep.clock }

/-- One thread executing `_wait_for_rate_limit` followed by the request
send, split at the source's statement boundaries: pc 0 reads the shared
timestamp and computes the sleep amount, pc 1 sleeps, pc 2 writes the
shared timestamp and sends (recording the send time), pc 3 is done. -/
structure ThreadState where
  pc : Nat
  sleepAmt : Int
  deriving DecidableEq

/-- Shared state of two concurrent callers of `_wait_for_rate_limit`:
the single `last_request_time`, the clock, both threads, and the send log. -/
structure ConcState where
  last_request_time : Int
  clock : Int
  thread0 : ThreadState
  thread1 : ThreadState
  sends : List Int
  deriving DecidableEq

/-- One atomic step of one thread.  There is no lock in the source, so
between any two steps the other thread may run. -/
def threadStep (g : ConcState) (t : ThreadState) : ConcState × ThreadState :=
  match t.pc with
  | 0 =>
    let elapsed := g.clock - g.last_request_time
    (g, { pc := 1, sleepAmt := if elapsed < 11 then 11 - elapsed else 0 })
  | 1 => ({ g with clock := g.clock + t.sleepAmt }, { t with pc := 2 })
  | 2 => ({ g with last_request_time := g.clock, sends := g.sends ++ [g.clock] }, { t with pc := 3 })
  | _ => (g, t)

/-- Scheduler step: `false` steps thread 0, `true` steps thread 1. -/
def stepConc (g : ConcState) (tid : Bool) : ConcState :=
  if tid then
    let p := threadStep g g.thread1
    { p.1 with thread1 := p.2 }
  else
    let p := threadStep g g.thread0
    { p.1 with thread0 := p.2 }

/-- Run a schedule (a list of thread choices) from a state. -/
def runSchedule (g : ConcState) : List Bool → ConcState
  | [] => g
  | tid :: rest => runSchedule (stepConc g tid) rest

/-- Initial concurrent state: fresh fetcher (`last_request_time = 0`),
clock well past the limit, both threads about to enter the limiter. -/
def initConc : ConcState :=
  { last_request_time := 0, clock := 1000,
    thread0 := { pc := 0, sleepAmt := 0 },
    thread1 := { pc := 0, sleepAmt := 0 }, sends := [] }

/-- A schedule in which both threads read the shared timestamp before
either writes it. -/
def racySchedule : List Bool := [false, true, false, false, true, true]

/-! ## `app/main.py` -/

/-- A user-visible failure: an explicit `HTTPException` with a status code,
or an exception that escapes `_process_generation` uncaught (which the
framework surfaces as a 500-class server error). -/
inductive Failure where
  | http (status : Nat) (detail : Str)
  | uncaught (e : PyErr)
  deriving DecidableEq

/-- The response record assembled by `_process_generation`. -/
structure ResponseRecord where
  name : Str
  phone : Str
  address : Str
  city_state : Str
  zipcode : Option Str
  country : Str
  full_address : Option Str
  deriving DecidableEq

/-- Lines 49-53 of `main.py`: normalize the country, defaulting any falsy
normalization result to `"US"`. -/
def resolvedCountryCode (country_map : List (Str × Str))
    (country_input : Str) : Str :=
  let cc0 := normalize country_map country_input
  if truthy cc0 then cc0.getD [] else s2l "US"

/-- `_process_generation`, parameterised over its two collaborators: the
address fetcher outcome and the persona generator outcome (both module
globals in the source).  A `None` fetch raises HTTP 503; an exception from
the persona step escapes uncaught. -/
def processGeneration (country_map : List (Str × Str))
    (fetch : Str → Option Str → Option Str → Option Str →
      Option NormalizedAddress)
    (persona : Str → Except PyErr Persona)
    (country_input : Str) (state city zipcode : Option Str) :
    Except Failure ResponseRecord :=
  let country_code := resolvedCountryCode country_map country_input
  match fetch country_code city zipcode state with
  | none =>
    .error (.http 503
      (s2l "Unable to fetch real address from network at this time."))
  | some real_address_data =>
    match persona country_code with
    | .error e => .error (.uncaught e)
    | .ok p =>
      let c := pyOrD real_address_data.city []
      let s := pyOrD real_address_data.state []
      let city_state := pyStripSet [',', ' '] (c ++ s2l ", " ++ s)
      .ok { name := p.name
          , phone := p.phone
          , address := real_address_data.address
          , city_state := city_state
          , zipcode := real_address_data.zipcode
          , country := pyOrD real_address_data.country country_code
          , full_address := real_address_data.full_address }

/-! ## Specification-side definitions (from the spec's words) -/

/-- First present (non-`None`) entry of a priority chain — the spec's
precedence wording ("first non-null", "absent fields surface as null"). -/
def firstPresent : List (Option Str) → Option Str
  | [] => none
  | some s :: _ => some s
  | none :: rest => firstPresent rest

/-- Spec-side street line: precedence road > pedestrian-way > footway >
generic street, prefixed with the house number if present, else falling
back through amenity, shop, display name, to "Unknown Street". -/
def specStreetLine (result : OSMResult) : Str :=
  let addr := result.address.getD emptyOSMAddress
  match firstPresent [addr.road, addr.pedestrian, addr.footway, addr.street]
    with
  | some s =>
    match addr.house_number with
    | some h => h ++ s2l " " ++ s
    | none => s
  | none =>
    (firstPresent [addr.amenity, addr.shop, result.name]).getD
      (s2l "Unknown Street")

/-- Spec-side parse: the `NormalizedAddress` described in the spec's
"Result parsing" paragraph. -/
def spec_parse_osm_result (result : OSMResult) : NormalizedAddress :=
  let addr := result.address.getD emptyOSMAddress
  { address := specStreetLine result
  , city := firstPresent [addr.city, addr.town, addr.village, addr.county,
      addr.municipality]
  , state := firstPresent [addr.state, addr.province, addr.region]
  , zipcode := addr.postcode
  , country := addr.country
  , full_address := result.display_name }

/-- A provider string field is well-formed when, if present, it is
non-empty (the spec's "well-formed provider record"). -/
def okStr : Option Str → Bool
  | none => true
  | some s => !s.isEmpty

/-- Well-formedness of a raw address substructure: every present field is
non-empty. -/
def wellFormedAddr (a : OSMAddress) : Bool :=
  okStr a.road && okStr a.pedestrian && okStr a.footway && okStr a.street &&
  okStr a.house_number && okStr a.amenity && okStr a.shop && okStr a.city &&
  okStr a.town && okStr a.village && okStr a.county && okStr a.municipality &&
  okStr a.state && okStr a.province && okStr a.region && okStr a.postcode &&
  okStr a.country

/-- Well-formedness of a raw provider record. -/
def wellFormed (r : OSMResult) : Bool :=
  (match r.address with
   | some a => wellFormedAddr a
   | none => true) && okStr r.name

/-! ## Concrete sample data used by witnesses and counterexamples -/

/-- A small concrete English territory table, standing in for the external
`babel` data in closed instantiations. -/
def enSample : List (Str × Str) :=
  [(s2l "United States", s2l "US"), (s2l "United Kingdom", s2l "GB"),
   (s2l "Germany", s2l "DE")]

/-- The country map built from the sample table. -/
def countryMapSample : List (Str × Str) := load_country_data enSample []

/-- A concrete faker oracle. -/
def fakerSample : FakerOracle :=
  { name := s2l "John Smith", phone := s2l "+1 555 0100" }

/-- A concrete normalized address (the mocked OSM record of the repo's own
`test_address_fetcher_mock.py`, after parsing). -/
def addrSample : NormalizedAddress :=
  { address := s2l "44 West 63rd Street"
  , city := some (s2l "New York")
  , state := some (s2l "New York")
  , zipcode := some (s2l "10023")
  , country := some (s2l "United States")
  , full_address := some (s2l "Hotel Empire, 44, West 63rd Street") }

/-- A concrete normalized address whose provider country label is missing. -/
def addrNoCountry : NormalizedAddress :=
  { addrSample with country := none }

/-- A fetcher collaborator that always resolves to `addrSample`. -/
def fetchAlways : Str → Option Str → Option Str → Option Str →
    Option NormalizedAddress := fun _ _ _ _ => some addrSample

/-- A fetcher collaborator that always resolves to `addrNoCountry`. -/
def fetchNoCountry : Str → Option Str → Option Str → Option Str →
    Option NormalizedAddress := fun _ _ _ _ => some addrNoCountry

/-- A fetcher collaborator whose cascade is always exhausted. -/
def fetchNever : Str → Option Str → Option Str → Option Str →
    Option NormalizedAddress := fun _ _ _ _ => none

/-- A persona collaborator that succeeds (used where the orchestrator is
studied independently of the persona defect). -/
def personaOk : Str → Except PyErr Persona :=
  fun _ => .ok { name := s2l "John Smith", phone := s2l "+1 555 0100" }

/-- A phone oracle with an example number for which parsing the mutated
number raises. -/
def phoneEnvParseFails : PhoneEnv :=
  { exampleNumberForTypeMobile := fun _ => .ok (some { country_code := 1 })
  , exampleNumber := fun _ => .ok none
  , formatE164 := fun _ => .ok (s2l "+12015550123")
  , parseNumber := fun _ _ => .error .numberParseError
  , formatIntlParsed := fun _ => .ok (s2l "unused")
  , formatIntlExample := fun _ => .ok (s2l "+1 201-555-0123")
  , randomDigits := fun n => List.replicate n '5'
  , fakerPhoneNumber := s2l "faker-phone" }

/-- A phone oracle for a region with no example number of any type. -/
def phoneEnvNoExample : PhoneEnv :=
  { phoneEnvParseFails with
    exampleNumberForTypeMobile := fun _ => .ok none
  , exampleNumber := fun _ => .ok none }

/-- A phone oracle on which fetching the mobile example raises. -/
def phoneEnvMobileRaises : PhoneEnv :=
  { phoneEnvParseFails with
    exampleNumberForTypeMobile := fun _ => .error .formatError }

/-- A phone oracle on which E.164 formatting of the example raises. -/
def phoneEnvE164Raises : PhoneEnv :=
  { phoneEnvParseFails with
    formatE164 := fun _ => .error .formatError }

/-- A concrete raw OSM result (the mocked provider record of
`test_address_fetcher_mock.py`). -/
def osmSample : OSMResult :=
  { address := some
      { road := some (s2l "West 63rd Street")
      , pedestrian := none
      , footway := none
      , street := none
      , house_number := some (s2l "44")
      , amenity := none
      , shop := none
      , city := some (s2l "New York")
      , town := none
      , village := none
      , county := some (s2l "New York County")
      , municipality := none
      , state := some (s2l "New York")
      , province := none
      , region := none
      , postcode := some (s2l "10023")
      , country := some (s2l "United States") }
  , name := none
  , display_name := some (s2l "Hotel Empire, 44, West 63rd Street") }

/-- The response `_process_generation` assembles for `fetchNoCountry` and
`personaOk` on input country `"US"`. -/
def respC10 : ResponseRecord :=
  { name := s2l "John Smith"
  , phone := s2l "+1 555 0100"
  , address := s2l "44 West 63rd Street"
  , city_state := s2l "New York, New York"
  , zipcode := some (s2l "10023")
  , country := s2l "US"
  , full_address := some (s2l "Hotel Empire, 44, West 63rd Street") }

/-! ## Theorems -/

/-- A truthy optional string is a non-empty string. -/
theorem truthy_iff (o : Option Str) :
    truthy o = true ↔ ∃ s, o = some s ∧ s ≠ [] := by
  cases o with
  | none => simp [truthy]
  | some s => simp [truthy, List.isEmpty_iff]

/-- `pyOrD` with a non-empty default is non-empty. -/
theorem pyOrD_ne_nil (a : Option Str) (d : Str) (hd : d ≠ []) :
    pyOrD a d ≠ [] := by
  unfold pyOrD
  split
  · next h =>
    obtain ⟨s, rfl, hs⟩ := (truthy_iff a).mp h
    simpa using hs
  · exact hd

/-- `pyOrD` of a falsy value is its default. -/
theorem pyOrD_false (a : Option Str) (d : Str) (h : truthy a = false) :
    pyOrD a d = d := by
  simp [pyOrD, h]

/-- `resolvedCountryCode` is never the empty string: a falsy normalization
result is replaced by `"US"`. -/
theorem resolvedCountryCode_ne_nil (m : List (Str × Str)) (inp : Str) :
    resolvedCountryCode m inp ≠ [] := by
  unfold resolvedCountryCode
  dsimp only
  split
  · next h =>
    obtain ⟨s, hs, hne⟩ := (truthy_iff _).mp h
    rw [hs]
    simpa using hne
  · decide

/-- Claim C1: the spec says `generate(countryCode)` returns, without
raising, a `{name, phone}` record, with the name drawn from a generator
keyed by the country's locale tag, so the locale accessor it calls on the
Country/Locale Table must exist.  The code instead calls
`country_manager.get_faker(...)`, an attribute `CountryManager` never
defines (it only defines `get_faker_locale`), so `generate` raises
`AttributeError` for every country code. -/
theorem C1_generate_raises_attribute_error :
    persona_generate fakerSample (s2l "US") = .error .attributeError ∧
    (s2l "get_faker") ∉ countryManagerAttrs ∧
    (s2l "get_faker_locale") ∈ countryManagerAttrs :=
  ⟨rfl, by decide, by decide⟩

/-- Claim C2: `fetch_real_address` is a strict ordered cascade stopping at
the first success: the specific-input query gated on a truthy city or
zipcode, then exactly two random-city attempts whose failures (including a
raising `fake.city()`) are swallowed, then the major-city query gated on
membership in the curated table, then one broad query.  Stated as equality
with the spec-side `firstSome` of the ordered `levelOutcomes`, for every
oracle environment. -/
theorem C2_cascade_is_ordered_firstSome (env : FetchEnv) (country_code : Str)
    (city zipcode state : Option Str) :
    fetch_real_address env country_code city zipcode state =
      firstSome (levelOutcomes env country_code city zipcode state) := by
  unfold fetch_real_address levelOutcomes
  cases h1 : (if truthy city || truthy zipcode then
      env.queryResult (QueryReq.mk country_code city zipcode state false)
    else none) with
  | some a => rfl
  | none =>
    cases h2 : level2attempt env country_code 0 with
    | some a => rfl
    | none =>
      cases h3 : level2attempt env country_code 1 with
      | some a => rfl
      | none =>
        cases h4 : lookupCities major_cities country_code with
        | none =>
          dsimp only
          cases h6 : env.queryResult
              (QueryReq.mk country_code none none none true) <;> rfl
        | some cities =>
          dsimp only
          cases h5 : env.queryResult (QueryReq.mk country_code
              (some (pickChoice cities env.majorCityIdx)) none none false) with
          | some a => rfl
          | none =>
            cases h6 : env.queryResult
                (QueryReq.mk country_code none none none true) <;> rfl

/-- Claim C9 (amended): with a single process-wide `last_request_time`, a
single-threaded execution of `_wait_for_rate_limit` never lets the gap
since the previous query's send time drop below 1.1 s (11 time units):
the send happens at the returned clock, at least 11 units after the stored
previous send time, and the stored timestamp equals the send time.  The
check-and-update is, however, not protected by any lock (see the
counterexample). -/
theorem C9_sequential_gap (st : LimiterState) :
    st.last_request_time + 11 ≤ (wait_for_rate_limit st).clock ∧
    (wait_for_rate_limit st).last_request_time =
      (wait_for_rate_limit st).clock := by
  refine ⟨?_, rfl⟩
  unfold wait_for_rate_limit
  dsimp only
  split <;> first
  | omega
  | (dsimp only; omega)

/-- Claim C9, counterexample to the mutual-exclusion part: the code has no
lock around the check-and-update of `last_request_time`, so two concurrent
callers can both read the stale timestamp before either writes it, and
both send immediately: the recorded send times coincide (gap 0 < 11). -/
theorem C9_counterexample_race :
    (runSchedule initConc racySchedule).sends = [1000, 1000] ∧
    ¬ ((1000 : Int) + 11 ≤ 1000) :=
  ⟨rfl, by decide⟩

/-- Claim C3: the orchestrator does map a `None` fetch outcome to HTTP 503
(first conjunct, at a cascade-exhausted collaborator), but the 503 is NOT
the only user-visible failure: because `generate` calls the nonexistent
`get_faker` attribute, every run in which the fetch succeeds raises
`AttributeError` out of `_process_generation`, a 500-class failure
(second conjunct, evaluated at a collaborator that always resolves). -/
theorem C3_503_on_exhaustion_but_not_only_failure :
    processGeneration countryMapSample fetchNever
        (persona_generate fakerSample) (s2l "US") none none none =
      .error (.http 503
        (s2l "Unable to fetch real address from network at this time.")) ∧
    processGeneration countryMapSample fetchAlways
        (persona_generate fakerSample) (s2l "US") none none none =
      .error (.uncaught .attributeError) :=
  ⟨rfl, rfl⟩

/-- Claim C10: whenever `_process_generation` returns a success record, its
`country` field is non-empty, and whenever the geocoded record's country is
falsy (null or empty) the field is exactly the resolved (normalized or
defaulted) country code. -/
theorem C10_success_country_nonempty (country_map : List (Str × Str))
    (fetch : Str → Option Str → Option Str → Option Str →
      Option NormalizedAddress)
    (persona : Str → Except PyErr Persona)
    (country_input : Str) (state city zipcode : Option Str)
    (resp : ResponseRecord)
    (hok : processGeneration country_map fetch persona country_input state
      city zipcode = .ok resp) :
    resp.country ≠ [] ∧
    (∀ rad, fetch (resolvedCountryCode country_map country_input) city
        zipcode state = some rad →
      truthy rad.country = false →
      resp.country = resolvedCountryCode country_map country_input) := by
  unfold processGeneration at hok
  dsimp only at hok
  cases hf : fetch (resolvedCountryCode country_map country_input) city
      zipcode state with
  | none => rw [hf] at hok; exact absurd hok (by simp)
  | some rad =>
    rw [hf] at hok
    cases hp : persona (resolvedCountryCode country_map country_input) with
    | error e => rw [hp] at hok; exact absurd hok (by simp)
    | ok p =>
      rw [hp] at hok
      have hresp := (Except.ok.injEq _ _).mp hok.symm
      subst hresp
      constructor
      · exact pyOrD_ne_nil _ _ (resolvedCountryCode_ne_nil _ _)
      · intro rad2 hrad2 htr
        have heq : rad = rad2 := by injection hrad2
        subst heq
        exact pyOrD_false _ _ htr

/-- Witness for C10 at a concrete collaborator whose geocoded record has no
country label: the response substitutes the resolved code `"US"`. -/
theorem C10_witness :
    respC10.country ≠ [] ∧
    respC10.country = resolvedCountryCode countryMapSample (s2l "US") := by
  have h := C10_success_country_nonempty countryMapSample fetchNoCountry
    personaOk (s2l "US") none none none respC10 rfl
  exact ⟨h.1, h.2 addrNoCountry rfl rfl⟩

/-- Claim C6: a single geocode query never propagates an exception: a
raised transport call, a non-200 status, and a raising body parse each
make the query return `None`; in general every raise inside the `try:`
body is caught and mapped to `None`. -/
theorem C6_query_failures_return_none :
    (∀ e i, queryResponseResult (.raised e) i = none) ∧
    (∀ s b i, s ≠ 200 → queryResponseResult (.response s b) i = none) ∧
    (∀ e i, queryResponseResult (.response 200 (.error e)) i = none) ∧
    (∀ o i e, queryResponseTryBody o i = .error e →
      queryResponseResult o i = none) := by
  refine ⟨fun e i => rfl, fun s b i hs => ?_, fun e i => rfl,
    fun o i e he => ?_⟩
  · unfold queryResponseResult queryResponseTryBody
    dsimp only
    rw [if_neg hs]
  · unfold queryResponseResult
    rw [he]

/-- An infix of a list is an infix of any left extension. -/
theorem infix_append_left_str (s : Str) {a t : Str} (h : a <:+: t) :
    a <:+: s ++ t := by
  obtain ⟨u, v, rfl⟩ := h
  exact ⟨s ++ u, v, by simp [List.append_assoc]⟩

/-- Every part is an infix of the joined string. -/
theorem pyJoin_infix_of_mem (sep : Str) :
    ∀ (l : List Str) (a : Str), a ∈ l → a <:+: pyJoin sep l
  | [], a, h => absurd h (List.not_mem_nil a)
  | [x], a, h => by
      rw [List.mem_singleton] at h
      subst h
      exact List.infix_refl _
  | x :: y :: rest, a, h => by
      rcases List.mem_cons.mp h with rfl | h2
      · exact ⟨[], sep ++ pyJoin sep (y :: rest), by
          simp [pyJoin, List.append_assoc]⟩
      · have ih := pyJoin_infix_of_mem sep (y :: rest) a h2
        have : pyJoin sep (x :: y :: rest) =
            (x ++ sep) ++ pyJoin sep (y :: rest) := by
          simp [pyJoin, List.append_assoc]
        rw [this]
        exact infix_append_left_str _ ih

/-- The first part is a prefix of the joined string. -/
theorem pyJoin_head_pfx (sep x : Str) (rest : List Str) :
    x <+: pyJoin sep (x :: rest) := by
  cases rest with
  | nil => exact List.prefix_refl _
  | cons y ys =>
    exact ⟨sep ++ pyJoin sep (y :: ys), by simp [pyJoin, List.append_assoc]⟩

/-- The last part is a suffix of the joined string. -/
theorem pyJoin_last_suffix (sep a : Str) :
    ∀ (l : List Str), a <:+ pyJoin sep (l ++ [a]) := by
  intro l
  induction l with
  | nil => exact List.suffix_refl _
  | cons x rest ih =>
    have hshape : (x :: rest) ++ [a] = x :: (rest ++ [a]) := rfl
    rw [hshape]
    cases hr : rest ++ [a] with
    | nil => exact absurd hr (by simp)
    | cons y ys =>
      rw [hr] at ih
      obtain ⟨u, hu⟩ := ih
      exact ⟨x ++ sep ++ u, by simp [pyJoin, ← hu, List.append_assoc]⟩

/-- `random.choice` picks an element of its (non-empty) list. -/
theorem pickChoice_mem (l : List Str) (hne : l ≠ []) (i : Nat) :
    pickChoice l i ∈ l := by
  unfold pickChoice
  have hlen : 0 < l.length := List.length_pos.mpr hne
  have hm : i % l.length < l.length := Nat.mod_lt _ hlen
  rw [List.getD_eq_getElem l [] hm]
  exact List.getElem_mem hm

/-- Claim C4: a non-broad query text starts with a keyword of the fixed
12-word vocabulary; it contains `"in {zipcode}"` whenever a zipcode is
supplied and `"in {city}"` whenever a city is supplied, and ends with the
state verbatim when one is supplied; the broad query text is exactly
`"{keyword} in"`; every query carries `countrycodes = countryCode`. -/
theorem C4_query_construction (kwIdx : Nat) (country_code : Str)
    (city zipcode state : Option Str) :
    pickChoice search_keywords kwIdx ∈ search_keywords ∧
    pickChoice search_keywords kwIdx <+:
      nominatimQueryText kwIdx city zipcode state false ∧
    (truthy zipcode = true → (s2l "in " ++ zipcode.getD []) <:+:
      nominatimQueryText kwIdx city zipcode state false) ∧
    (truthy city = true → (s2l "in " ++ city.getD []) <:+:
      nominatimQueryText kwIdx city zipcode state false) ∧
    (truthy state = true → state.getD [] <:+
      nominatimQueryText kwIdx city zipcode state false) ∧
    nominatimQueryText kwIdx city zipcode state true =
      pickChoice search_keywords kwIdx ++ s2l " in" ∧
    (∀ b, (nominatimParams country_code kwIdx city zipcode state
      b).countrycodes = country_code) := by
  refine ⟨pickChoice_mem _ (by decide) _, ?_, ?_, ?_, ?_, ?_, fun b => rfl⟩
  · unfold nominatimQueryText nominatimQueryParts
    dsimp only
    exact pyJoin_head_pfx _ _ _
  · intro hz
    unfold nominatimQueryText nominatimQueryParts
    dsimp only
    exact pyJoin_infix_of_mem _ _ _ (by simp [hz])
  · intro hc
    unfold nominatimQueryText nominatimQueryParts
    dsimp only
    exact pyJoin_infix_of_mem _ _ _ (by simp [hc])
  · intro hs
    unfold nominatimQueryText nominatimQueryParts
    dsimp only
    rw [hs]
    have hshape :
        [pickChoice search_keywords kwIdx] ++
          (if truthy zipcode = true then [s2l "in " ++ zipcode.getD []]
            else []) ++
          (if truthy city = true then [s2l "in " ++ city.getD []] else []) ++
          (if true = true then [state.getD []] else []) =
        ([pickChoice search_keywords kwIdx] ++
          (if truthy zipcode = true then [s2l "in " ++ zipcode.getD []]
            else []) ++
          (if truthy city = true then [s2l "in " ++ city.getD []] else [])) ++
          [state.getD []] := by
      simp
    rw [hshape]
    exact pyJoin_last_suffix _ _ _
  · unfold nominatimQueryText nominatimQueryParts
    dsimp only
    rfl

/-- Witness for C4 at keyword index 0, zipcode 90210, city New York and
state CA. -/
theorem C4_witness :
    pickChoice search_keywords 0 ∈ search_keywords ∧
    (s2l "in " ++ s2l "90210") <:+:
      nominatimQueryText 0 (some (s2l "New York")) (some (s2l "90210"))
        (some (s2l "CA")) false ∧
    (s2l "in " ++ s2l "New York") <:+:
      nominatimQueryText 0 (some (s2l "New York")) (some (s2l "90210"))
        (some (s2l "CA")) false ∧
    s2l "CA" <:+
      nominatimQueryText 0 (some (s2l "New York")) (some (s2l "90210"))
        (some (s2l "CA")) false ∧
    nominatimQueryText 0 (some (s2l "New York")) (some (s2l "90210"))
      (some (s2l "CA")) true = pickChoice search_keywords 0 ++ s2l " in" := by
  have h := C4_query_construction 0 (s2l "us") (some (s2l "New York"))
    (some (s2l "90210")) (some (s2l "CA"))
  exact ⟨h.1, h.2.2.1 rfl, h.2.2.2.1 rfl, h.2.2.2.2.1 rfl, h.2.2.2.2.2.1⟩

/-- Witness for C6 at concrete failing outcomes: a network error, a 403
response, and a body whose JSON parse raises. -/
theorem C6_witness :
    queryResponseResult (.raised .requestError) 0 = none ∧
    queryResponseResult (.response 403 (.ok [])) 0 = none ∧
    queryResponseResult (.response 200 (.error .jsonError)) 0 = none ∧
    queryResponseResult (.response 200 (.error .jsonError)) 1 = none := by
  have h := C6_query_failures_return_none
  exact ⟨h.1 .requestError 0, h.2.1 403 (.ok []) 0 (by decide),
    h.2.2.1 .jsonError 0, h.2.2.2 (.response 200 (.error .jsonError)) 1
      .jsonError rfl⟩

/-- `firstPresent` on a cons. -/
theorem fp_cons (a : Option Str) (rest : List (Option Str)) :
    firstPresent (a :: rest) =
      match a with
      | some s => some s
      | none => firstPresent rest := by
  cases a <;> rfl

/-- `firstPresent` of a singleton. -/
theorem fp_singleton (a : Option Str) : firstPresent [a] = a := by
  cases a <;> rfl

/-- A present well-formed field is non-empty. -/
theorem okStr_some_iff (s : Str) : okStr (some s) = true ↔ s ≠ [] := by
  simp [okStr, List.isEmpty_iff]

/-- A well-formed optional field is never the empty-string placeholder. -/
theorem okStr_ne_some_nil (o : Option Str) (h : okStr o = true) :
    o ≠ some [] := by
  cases o with
  | none => simp
  | some s =>
    have hs : s ≠ [] := (okStr_some_iff s).mp h
    simpa using hs

/-- Python `or` against a well-formed first operand agrees with the spec's
"first present" reading. -/
theorem pyOr_fp_cons (a : Option Str) (rest : List (Option Str))
    (ha : okStr a = true) :
    pyOr a (firstPresent rest) = firstPresent (a :: rest) := by
  cases a with
  | none => simp [pyOr, truthy, fp_cons]
  | some s =>
    have hs : s ≠ [] := (okStr_some_iff s).mp ha
    simp [pyOr, truthy, List.isEmpty_iff, hs, fp_cons]

/-- A two-step `or` chain is the spec's precedence chain when the first
operand is well-formed. -/
theorem pyOr_fp2 (a b : Option Str) (ha : okStr a = true) :
    pyOr a b = firstPresent [a, b] := by
  have h : firstPresent [b] = b := fp_singleton b
  cases a with
  | none =>
    rw [show firstPresent [none, b] = firstPresent [b] from rfl, h]
    simp [pyOr, truthy]
  | some s =>
    have hs : s ≠ [] := (okStr_some_iff s).mp ha
    simp [pyOr, truthy, List.isEmpty_iff, hs, firstPresent]

/-- A three-step `or` chain is the spec's precedence chain when the
skippable operands are well-formed. -/
theorem pyOr_chain3 (a b c : Option Str) (ha : okStr a = true)
    (hb : okStr b = true) :
    pyOr a (pyOr b c) = firstPresent [a, b, c] := by
  rw [pyOr_fp2 b c hb, pyOr_fp_cons a [b, c] ha]

/-- A four-step `or` chain is the spec's precedence chain. -/
theorem pyOr_chain4 (a b c d : Option Str) (ha : okStr a = true)
    (hb : okStr b = true) (hc : okStr c = true) :
    pyOr a (pyOr b (pyOr c d)) = firstPresent [a, b, c, d] := by
  rw [pyOr_fp2 c d hc, pyOr_fp_cons b [c, d] hb, pyOr_fp_cons a [b, c, d] ha]

/-- A five-step `or` chain is the spec's precedence chain. -/
theorem pyOr_chain5 (a b c d e : Option Str) (ha : okStr a = true)
    (hb : okStr b = true) (hc : okStr c = true) (hd : okStr d = true) :
    pyOr a (pyOr b (pyOr c (pyOr d e))) = firstPresent [a, b, c, d, e] := by
  rw [pyOr_fp2 d e hd, pyOr_fp_cons c [d, e] hc, pyOr_fp_cons b [c, d, e] hb,
    pyOr_fp_cons a [b, c, d, e] ha]

/-- The first present entry of a chain of well-formed fields is itself
well-formed. -/
theorem okStr_fp (l : List (Option Str)) (h : ∀ o ∈ l, okStr o = true) :
    okStr (firstPresent l) = true := by
  induction l with
  | nil => rfl
  | cons a rest ih =>
    rw [fp_cons]
    cases a with
    | some s => exact h (some s) (by simp)
    | none => exact ih (fun o ho => h o (by simp [ho]))

/-- `pyOrD` of a well-formed operand is `Option.getD`. -/
theorem pyOrD_ok (a : Option Str) (d : Str) (ha : okStr a = true) :
    pyOrD a d = a.getD d := by
  cases a with
  | none => simp [pyOrD, truthy]
  | some s =>
    have hs : s ≠ [] := (okStr_some_iff s).mp ha
    simp [pyOrD, truthy, List.isEmpty_iff, hs]

/-- Claim C5: the parsed record's `address` is never empty (unconditional),
and on every well-formed provider record the parser agrees with the spec's
precedence chains (street line: road > pedestrian > footway > street,
house-number prefix, then amenity > shop > display name > the
"Unknown Street" sentinel; settlement and region precedence as listed),
with the optional fields never an empty-string placeholder. -/
theorem C5_parse_never_empty_and_spec (r : OSMResult) :
    (parse_osm_result r).address ≠ [] ∧
    (wellFormed r = true →
      parse_osm_result r = spec_parse_osm_result r ∧
      (parse_osm_result r).city ≠ some [] ∧
      (parse_osm_result r).state ≠ some [] ∧
      (parse_osm_result r).zipcode ≠ some [] ∧
      (parse_osm_result r).country ≠ some []) := by
  constructor
  · unfold parse_osm_result
    dsimp only
    cases htr : truthy (pyOr (r.address.getD emptyOSMAddress).road
        (pyOr (r.address.getD emptyOSMAddress).pedestrian
          (pyOr (r.address.getD emptyOSMAddress).footway
            (r.address.getD emptyOSMAddress).street))) with
    | false =>
      simp only [htr, Bool.false_eq_true, if_false]
      exact pyOrD_ne_nil _ _ (by decide)
    | true =>
      simp only [htr, if_true]
      obtain ⟨s, hs, hsne⟩ := (truthy_iff _).mp htr
      rw [hs]
      cases hh : truthy (r.address.getD emptyOSMAddress).house_number with
      | true =>
        simp only [hh, if_true]
        intro habs
        exact hsne (List.append_eq_nil.mp habs).2
      | false =>
        simp only [hh, Bool.false_eq_true, if_false]
        simpa using hsne
  · intro hwf
    unfold wellFormed at hwf
    rw [Bool.and_eq_true] at hwf
    have hname : okStr r.name = true := hwf.2
    have hwa : wellFormedAddr (r.address.getD emptyOSMAddress) = true := by
      cases hA : r.address with
      | none => decide
      | some a =>
        have := hwf.1
        rw [hA] at this
        exact this
    unfold wellFormedAddr at hwa
    simp only [Bool.and_eq_true] at hwa
    rcases hwa with ⟨⟨⟨⟨⟨⟨⟨⟨⟨⟨⟨⟨⟨⟨⟨⟨hroad, hped⟩, hfoot⟩, hstreet⟩,
      hhouse⟩, hamen⟩, hshop⟩, hcity⟩, htown⟩, hvill⟩, hcounty⟩, hmun⟩,
      hstate⟩, hprov⟩, hreg⟩, hpost⟩, hcountry⟩
    have hok3 : okStr (firstPresent [(r.address.getD emptyOSMAddress).amenity,
        (r.address.getD emptyOSMAddress).shop, r.name]) = true := by
      apply okStr_fp
      intro o ho
      simp only [List.mem_cons, List.not_mem_nil, or_false] at ho
      rcases ho with rfl | rfl | rfl <;> assumption
    have hok4 : okStr (firstPresent [(r.address.getD emptyOSMAddress).road,
        (r.address.getD emptyOSMAddress).pedestrian,
        (r.address.getD emptyOSMAddress).footway,
        (r.address.getD emptyOSMAddress).street]) = true := by
      apply okStr_fp
      intro o ho
      simp only [List.mem_cons, List.not_mem_nil, or_false] at ho
      rcases ho with rfl | rfl | rfl | rfl <;> assumption
    have hok5 : okStr (firstPresent [(r.address.getD emptyOSMAddress).city,
        (r.address.getD emptyOSMAddress).town,
        (r.address.getD emptyOSMAddress).village,
        (r.address.getD emptyOSMAddress).county,
        (r.address.getD emptyOSMAddress).municipality]) = true := by
      apply okStr_fp
      intro o ho
      simp only [List.mem_cons, List.not_mem_nil, or_false] at ho
      rcases ho with rfl | rfl | rfl | rfl | rfl <;> assumption
    have hok3s : okStr (firstPresent
        [(r.address.getD emptyOSMAddress).state,
        (r.address.getD emptyOSMAddress).province,
        (r.address.getD emptyOSMAddress).region]) = true := by
      apply okStr_fp
      intro o ho
      simp only [List.mem_cons, List.not_mem_nil, or_false] at ho
      rcases ho with rfl | rfl | rfl <;> assumption
    have heq : parse_osm_result r = spec_parse_osm_result r := by
      unfold parse_osm_result spec_parse_osm_result specStreetLine
      dsimp only
      rw [pyOr_chain4 _ _ _ _ hroad hped hfoot,
        pyOr_chain5 _ _ _ _ _ hcity htown hvill hcounty,
        pyOr_chain3 _ _ _ hstate hprov,
        pyOr_chain3 _ _ _ hamen hshop]
      simp only [NormalizedAddress.mk.injEq, and_true, true_and]
      cases hfp : firstPresent [(r.address.getD emptyOSMAddress).road,
          (r.address.getD emptyOSMAddress).pedestrian,
          (r.address.getD emptyOSMAddress).footway,
          (r.address.getD emptyOSMAddress).street] with
      | none =>
        simp only [truthy, Bool.false_eq_true, if_false]
        exact pyOrD_ok _ _ hok3
      | some s =>
        rw [hfp] at hok4
        have hs : s ≠ [] := (okStr_some_iff s).mp hok4
        have htrs : truthy (some s) = true := by
          simp [truthy, List.isEmpty_iff, hs]
        rw [htrs]
        simp only [if_true]
        cases hh : (r.address.getD emptyOSMAddress).house_number with
        | none => simp [truthy]
        | some hn =>
          rw [hh] at hhouse
          have hhn : hn ≠ [] := (okStr_some_iff hn).mp hhouse
          have htrh : truthy (some hn) = true := by
            simp [truthy, List.isEmpty_iff, hhn]
          rw [htrh]
          simp
    refine ⟨heq, ?_, ?_, ?_, ?_⟩ <;> rw [heq] <;>
      unfold spec_parse_osm_result <;> dsimp only
    · exact okStr_ne_some_nil _ hok5
    · exact okStr_ne_some_nil _ hok3s
    · exact okStr_ne_some_nil _ hpost
    · exact okStr_ne_some_nil _ hcountry

/-- Witness for C5 on the concrete mocked provider record of the repo's
test-suite. -/
theorem C5_witness :
    (parse_osm_result osmSample).address ≠ [] ∧
    parse_osm_result osmSample = spec_parse_osm_result osmSample ∧
    (parse_osm_result osmSample).city ≠ some [] ∧
    (parse_osm_result osmSample).state ≠ some [] ∧
    (parse_osm_result osmSample).zipcode ≠ some [] ∧
    (parse_osm_result osmSample).country ≠ some [] := by
  have h := C5_parse_never_empty_and_spec osmSample
  have h2 := h.2 (by decide)
  exact ⟨h.1, h2.1, h2.2.1, h2.2.2.1, h2.2.2.2.1, h2.2.2.2.2⟩

/-- Claim C8 (amended): `_generate_phone_number` never surfaces a failure;
it falls back to the faker phone number when the country has no example
number of any type, or when fetching the example raises, or when E.164
formatting of the example raises; but when parsing the MUTATED number
raises, it returns the mutated number string as-is (the inner
`except` clause), not the faker fallback. -/
theorem C8_phone_fallbacks (env : PhoneEnv) (country_code : Str) :
    (env.exampleNumberForTypeMobile country_code = .ok none →
      env.exampleNumber country_code = .ok none →
      generate_phone_number env country_code = env.fakerPhoneNumber) ∧
    (∀ e, env.exampleNumberForTypeMobile country_code = .error e →
      generate_phone_number env country_code = env.fakerPhoneNumber) ∧
    (∀ ex e, env.exampleNumberForTypeMobile country_code = .ok (some ex) →
      env.formatE164 ex = .error e →
      generate_phone_number env country_code = env.fakerPhoneNumber) ∧
    (∀ ex e164 e,
      env.exampleNumberForTypeMobile country_code = .ok (some ex) →
      env.formatE164 ex = .ok e164 →
      0 < numDigitsToRandomize ex e164 →
      env.parseNumber
        (mutatedNumberStr env e164 (numDigitsToRandomize ex e164).toNat)
        country_code = .error e →
      generate_phone_number env country_code =
        mutatedNumberStr env e164 (numDigitsToRandomize ex e164).toNat) := by
  refine ⟨?_, ?_, ?_, ?_⟩
  · intro hm ha
    unfold generate_phone_number generatePhoneTryBody
    rw [hm, ha]
    rfl
  · intro e hm
    unfold generate_phone_number generatePhoneTryBody
    rw [hm]
    rfl
  · intro ex e hm hf
    unfold generate_phone_number generatePhoneTryBody
    rw [hm]
    dsimp only [Bind.bind, Except.bind, Pure.pure, Except.pure]
    rw [hf]
  · intro ex e164 e hm hf hpos hparse
    unfold generate_phone_number generatePhoneTryBody
    rw [hm]
    dsimp only [Bind.bind, Except.bind, Pure.pure, Except.pure]
    rw [hf]
    dsimp only [Bind.bind, Except.bind, Pure.pure, Except.pure]
    rw [if_pos hpos, hparse]

/-- Claim C8, counterexample to the claim as stated: at a concrete oracle
whose `phonenumbers.parse` of the mutated number raises, the function
returns the mutated E.164 string, which differs from the faker fallback the
claim prescribes. -/
theorem C8_counterexample_parse_failure :
    generate_phone_number phoneEnvParseFails (s2l "US") =
      s2l "+12015555555" ∧
    phoneEnvParseFails.fakerPhoneNumber = s2l "faker-phone" ∧
    s2l "+12015555555" ≠ s2l "faker-phone" :=
  ⟨rfl, rfl, by decide⟩

/-- Witness for C8 (amended) at concrete oracles for each recovery path. -/
theorem C8_witness :
    generate_phone_number phoneEnvNoExample (s2l "AQ") =
      phoneEnvNoExample.fakerPhoneNumber ∧
    generate_phone_number phoneEnvMobileRaises (s2l "US") =
      phoneEnvMobileRaises.fakerPhoneNumber ∧
    generate_phone_number phoneEnvE164Raises (s2l "US") =
      phoneEnvE164Raises.fakerPhoneNumber ∧
    generate_phone_number phoneEnvParseFails (s2l "US") =
      mutatedNumberStr phoneEnvParseFails (s2l "+12015550123")
        (numDigitsToRandomize { country_code := 1 }
          (s2l "+12015550123")).toNat := by
  refine ⟨?_, ?_, ?_, ?_⟩
  · exact (C8_phone_fallbacks phoneEnvNoExample (s2l "AQ")).1 rfl rfl
  · exact (C8_phone_fallbacks phoneEnvMobileRaises (s2l "US")).2.1
      .formatError rfl
  · exact (C8_phone_fallbacks phoneEnvE164Raises (s2l "US")).2.2.1
      { country_code := 1 } .formatError rfl rfl
  · exact (C8_phone_fallbacks phoneEnvParseFails (s2l "US")).2.2.2
      { country_code := 1 } (s2l "+12015550123") .numberParseError rfl rfl
      (by decide) rfl

/-- Case-folding one character preserves whitespace-ness. -/
theorem pyCharLower_space (c : Char) :
    isSpaceChar (pyCharLower c) = isSpaceChar c := by
  unfold pyCharLower
  cases hf : lowerPairs.find? (fun p => p.1 = c) with
  | none => rfl
  | some p =>
    have hmem : p ∈ lowerPairs := List.mem_of_find?_eq_some hf
    have hpc : p.1 = c := by
      have := List.find?_some hf
      simpa using this
    have hboth : ∀ q ∈ lowerPairs,
        isSpaceChar q.2 = false ∧ isSpaceChar q.1 = false := by decide
    have h2 := hboth p hmem
    rw [← hpc]
    simp [h2.1, h2.2]

/-- Case-folding is idempotent per character. -/
theorem pyCharLower_idem (c : Char) :
    pyCharLower (pyCharLower c) = pyCharLower c := by
  cases hf : lowerPairs.find? (fun p => p.1 = c) with
  | none =>
    have h1 : pyCharLower c = c := by unfold pyCharLower; rw [hf]; rfl
    rw [h1]
    exact h1
  | some p =>
    have hmem : p ∈ lowerPairs := List.mem_of_find?_eq_some hf
    have h1 : pyCharLower c = p.2 := by unfold pyCharLower; rw [hf]; rfl
    rw [h1]
    have hnone : ∀ q ∈ lowerPairs,
        lowerPairs.find? (fun r => r.1 = q.2) = none := by decide
    unfold pyCharLower
    rw [hnone p hmem]
    rfl

/-- Case-folding a string is idempotent. -/
theorem pyLower_idem (s : Str) : pyLower (pyLower s) = pyLower s := by
  unfold pyLower
  rw [List.map_map]
  have hfun : pyCharLower ∘ pyCharLower = pyCharLower := by
    funext x
    exact pyCharLower_idem x
  rw [hfun]

/-- Stripping commutes with case-folding. -/
theorem pyStrip_pyLower (s : Str) :
    pyStrip (pyLower s) = pyLower (pyStrip s) := by
  have hcomp : (isSpaceChar ∘ pyCharLower) = isSpaceChar := by
    funext c
    exact pyCharLower_space c
  unfold pyStrip pyLower
  rw [List.dropWhile_map, hcomp, ← List.map_reverse, List.dropWhile_map,
    hcomp, ← List.map_reverse]

/-- Case-folding preserves emptiness. -/
theorem pyLower_isEmpty (s : Str) : (pyLower s).isEmpty = s.isEmpty := by
  cases s <;> rfl

/-- Dict lookup distributes over concatenated insertion sequences, with the
later block taking precedence. -/
theorem pyDictGet_append (l1 l2 : List (Str × Str)) (k : Str) :
    pyDictGet (l1 ++ l2) k =
      match pyDictGet l2 k with
      | some v => some v
      | none => pyDictGet l1 k := by
  induction l1 with
  | nil =>
    rw [List.nil_append]
    cases h : pyDictGet l2 k <;> rfl
  | cons p rest ih =>
    obtain ⟨pk, pv⟩ := p
    rw [List.cons_append]
    simp only [pyDictGet]
    rw [ih]
    cases pyDictGet l2 k <;> cases pyDictGet rest k <;> rfl

/-- A dict lookup misses when no insertion carries the key. -/
theorem pyDictGet_no_key (l : List (Str × Str)) (k : Str)
    (h : ∀ p ∈ l, p.1 ≠ k) : pyDictGet l k = none := by
  induction l with
  | nil => rfl
  | cons p rest ih =>
    obtain ⟨pk, pv⟩ := p
    simp only [pyDictGet]
    rw [ih (fun q hq => h q (List.mem_cons_of_mem _ hq))]
    have hpk : pk ≠ k := by
      have := h (pk, pv) (List.mem_cons_self _ _)
      simpa using this
    simp [hpk]

/-- Any hit in the identity block is one of the listed codes at its folded
key. -/
theorem pyDictGet_idBlock_inv :
    ∀ (vals : List Str) (k v : Str),
      pyDictGet (vals.map (fun c => (pyLower c, c))) k = some v →
      v ∈ vals ∧ pyLower v = k
  | [], _, _, h => by simp [pyDictGet] at h
  | c :: rest, k, v, h => by
    simp only [List.map_cons, pyDictGet] at h
    cases hr : pyDictGet (rest.map (fun c => (pyLower c, c))) k with
    | some r =>
      rw [hr] at h
      dsimp only at h
      have hrv : r = v := by injection h
      subst hrv
      have ih := pyDictGet_idBlock_inv rest k r hr
      exact ⟨List.mem_cons_of_mem _ ih.1, ih.2⟩
    | none =>
      rw [hr] at h
      dsimp only at h
      by_cases hc : pyLower c = k
      · rw [if_pos hc] at h
        have hcv : c = v := by injection h
        subst hcv
        exact ⟨List.mem_cons_self _ _, hc⟩
      · rw [if_neg hc] at h
        exact absurd h (by simp)

/-- Looking up a listed code's folded key in the identity block yields the
code itself, when folding is injective at it among the listed codes. -/
theorem pyDictGet_idBlock_hit :
    ∀ (vals : List Str) (code : Str), code ∈ vals →
      (∀ c ∈ vals, pyLower c = pyLower code → c = code) →
      pyDictGet (vals.map (fun c => (pyLower c, c))) (pyLower code) =
        some code
  | [], code, hmem, _ => absurd hmem (List.not_mem_nil _)
  | c :: rest, code, hmem, huniq => by
    simp only [List.map_cons, pyDictGet]
    cases hr : pyDictGet (rest.map (fun c => (pyLower c, c))) (pyLower code)
      with
    | some r =>
      have hrv := pyDictGet_idBlock_inv rest (pyLower code) r hr
      have hrc : r = code := huniq r (List.mem_cons_of_mem _ hrv.1) hrv.2
      dsimp only
      rw [hrc]
    | none =>
      rcases List.mem_cons.mp hmem with rfl | hmem2
      · dsimp only
        rw [if_pos rfl]
      · have hcontra := pyDictGet_idBlock_hit rest code hmem2
          (fun d hd hdl => huniq d (List.mem_cons_of_mem _ hd) hdl)
        rw [hr] at hcontra
        exact absurd hcontra (by simp)

/-- `normalize` is case-insensitive. -/
theorem normalize_pyLower (m : List (Str × Str)) (s : Str) :
    normalize m (pyLower s) = normalize m s := by
  unfold normalize
  rw [pyLower_isEmpty, pyStrip_pyLower, pyLower_idem]

/-- Claim C7: `normalize` is case-insensitive; it is idempotent on the
codes of the table (for a code listed among the values of the merged
territory tables, whose strip and case-fold behave as an ISO code's do and
whose folded form is neither another listed code's fold nor a manual alias
key, `normalize code = code`); the manual aliases are inserted last and so
win every key collision, giving `normalize "UK" = "GB"` and
`normalize "America" = "US"` for every territory table; and `normalize`
returns `None` when no key matches. -/
theorem C7_normalize_properties (en zh : List (Str × Str)) (code : Str)
    (h1 : code ∈ pyDictValues (territoryEntries en zh))
    (h2 : pyStrip code = code)
    (h3 : code ≠ [])
    (h4 : ∀ c ∈ pyDictValues (territoryEntries en zh),
      pyLower c = pyLower code → c = code)
    (h5 : ∀ p ∈ manual_aliases, p.1 ≠ pyLower code) :
    (∀ s, normalize (load_country_data en zh) (pyLower s) =
      normalize (load_country_data en zh) s) ∧
    normalize (load_country_data en zh) code = some code ∧
    normalize (load_country_data en zh) (s2l "UK") = some (s2l "GB") ∧
    normalize (load_country_data en zh) (s2l "America") = some (s2l "US") ∧
    (∀ s, s ≠ [] →
      (∀ p ∈ load_country_data en zh, p.1 ≠ pyLower (pyStrip s)) →
      normalize (load_country_data en zh) s = none) := by
  refine ⟨fun s => normalize_pyLower _ s, ?_, ?_, ?_, ?_⟩
  · unfold normalize
    rw [if_neg (by simp only [List.isEmpty_iff]; exact h3), h2]
    unfold load_country_data
    dsimp only
    rw [pyDictGet_append, pyDictGet_no_key manual_aliases _ h5]
    dsimp only
    rw [pyDictGet_append,
      pyDictGet_idBlock_hit (pyDictValues (territoryEntries en zh)) code
        h1 h4]
  · unfold normalize
    rw [if_neg (by decide)]
    unfold load_country_data
    dsimp only
    rw [pyDictGet_append,
      show pyDictGet manual_aliases (pyLower (pyStrip (s2l "UK"))) =
        some (s2l "GB") from rfl]
  · unfold normalize
    rw [if_neg (by decide)]
    unfold load_country_data
    dsimp only
    rw [pyDictGet_append,
      show pyDictGet manual_aliases (pyLower (pyStrip (s2l "America"))) =
        some (s2l "US") from rfl]
  · intro s hs hnokey
    unfold normalize
    rw [if_neg (by simp only [List.isEmpty_iff]; exact hs)]
    exact pyDictGet_no_key _ _ hnokey

/-- Witness for C7 on the concrete sample table: case-insensitivity at
`"uS"`, idempotence at the code `"US"`, both alias precedences, and a miss
for an unknown name. -/
theorem C7_witness :
    normalize countryMapSample (pyLower (s2l "uS")) =
      normalize countryMapSample (s2l "uS") ∧
    normalize countryMapSample (s2l "US") = some (s2l "US") ∧
    normalize countryMapSample (s2l "UK") = some (s2l "GB") ∧
    normalize countryMapSample (s2l "America") = some (s2l "US") ∧
    normalize countryMapSample (s2l "Atlantis") = none := by
  have h := C7_normalize_properties enSample [] (s2l "US") (by decide)
    (by decide) (by decide) (by decide) (by decide)
  exact ⟨h.1 (s2l "uS"), h.2.1, h.2.2.1, h.2.2.2.1,
    h.2.2.2.2 (s2l "Atlantis") (by decide) (by decide)⟩

end RAG
